import Mathlib

/-!
Verification of the Smart-Tourist-Safety hybrid detection pipeline.

This file shallowly embeds the Python backend (`backend/engine/*.py`,
`backend/main.py`) in Lean 4 and settles the frozen claims about it.

Modelling conventions:
* Python floats are modelled by `ℚ` (the algorithms use only field
  operations and comparisons; no claim hinges on rounding).
* Python dict values of mixed type are modelled by `PVal`
  (`num`/`str`/`none`); dicts are association lists.
* Python exceptions are modelled by `Except Unit`.
* The trigonometric Haversine kernel (`math.sin`/`cos`/`atan2`/`sqrt`
  applied to valid numeric coordinates) and the float exponential
  (`np.exp`) are abstracted as function parameters `hav` and `expF`:
  every claim settled here depends only on which values flow where,
  never on the transcendental values themselves.
-/

/-- A Python value as stored in the event / feature dictionaries.
`str` covers non-numeric strings (the inputs exercised by the claims);
`none` is Python's `None`. -/
inductive PVal where
  | num : ℚ → PVal
  | str : String → PVal
  | none : PVal
deriving DecidableEq, Repr

/-- A Python dict with string keys, as an association list (first match wins,
like dict lookup; keys are unique in all inputs the service builds). -/
abbrev PDict := List (String × PVal)

/-- Python `d.get(k, default)`. -/
def pyGet (d : PDict) (k : String) (default : PVal) : PVal :=
  (d.lookup k).getD default

/-- Python truthiness of a value (`if not tourist_id: continue`). -/
def pyTruthy : PVal → Bool
  | .num q => q != 0
  | .str s => s != ""
  | .none => false

/-- Python `v >= q` for a numeric right operand: comparing a string or
`None` with a number raises `TypeError`, modelled as `Except.error`. -/
def pyGeNum (v : PVal) (q : ℚ) : Except Unit Bool :=
  match v with
  | .num a => .ok (decide (q ≤ a))
  | _ => .error ()

/-- Python `v > q` for a numeric right operand (TypeError on non-numbers). -/
def pyGtNum (v : PVal) (q : ℚ) : Except Unit Bool :=
  match v with
  | .num a => .ok (decide (q < a))
  | _ => .error ()

/-- Python `==` between dictionary values: never raises; values of
different types compare unequal. -/
def pyEq : PVal → PVal → Bool
  | .num a, .num b => a == b
  | .str a, .str b => a == b
  | .none, .none => true
  | _, _ => false

/-- Python `float(v or 0)` as used by `enrich_features`.
`None` and the empty string are falsy and become `0.0`; a numeric value
passes through; a non-empty string is non-numeric in the inputs modelled
here, so `float()` raises `ValueError` (CPython also parses numeric string
literals, which no claim exercises). -/
def pyFloat : PVal → Except Unit ℚ
  | .num q => .ok q
  | .none => .ok 0
  | .str s => if s = "" then .ok 0 else .error ()

-- ---------------------------------------------------------------------------
-- Severity (shared by rule engine and fusion)
-- ---------------------------------------------------------------------------

/-- The severity labels `"LOW"`, `"MEDIUM"`, `"HIGH"`, `"CRITICAL"`. -/
inductive Severity where
  | LOW | MEDIUM | HIGH | CRITICAL
deriving DecidableEq, BEq, Repr

/-- Source `SEVERITY_LEVELS = ["LOW", "MEDIUM", "HIGH", "CRITICAL"]`. -/
def SEVERITY_LEVELS : List Severity := [.LOW, .MEDIUM, .HIGH, .CRITICAL]

/-- Source `SEVERITY_LEVELS.index(s)`. -/
def severityIndex (s : Severity) : ℕ := SEVERITY_LEVELS.indexOf s

/-- Source `classify_severity` (identical in `hybrid_fusion.py` and
`rule_engine.py`): map a `[0, 1]` score to a severity label. -/
def classify_severity (score : ℚ) : Severity :=
  if 0.8 ≤ score then .CRITICAL
  else if 0.6 ≤ score then .HIGH
  else if 0.3 ≤ score then .MEDIUM
  else .LOW

/-- Source `severity_meets_threshold`: `SEVERITY_LEVELS.index(severity) >=
SEVERITY_LEVELS.index(threshold)`. -/
def severity_meets_threshold (severity threshold : Severity) : Bool :=
  severityIndex threshold ≤ severityIndex severity

-- ---------------------------------------------------------------------------
-- Hybrid fusion (backend/engine/hybrid_fusion.py)
-- ---------------------------------------------------------------------------

/-- Concordance labels of `_determine_concordance`. -/
inductive Concordance where
  | AGREE_HIGH | AGREE_LOW | RULE_ONLY | ML_ONLY | CONFLICT
deriving DecidableEq, Repr

/-- Source `_determine_concordance`: classify the agreement pattern between the
rule and ML systems (first matching row wins). -/
def determine_concordance (rule_score anomaly_score : ℚ) : Concordance :=
  if 0.5 < rule_score ∧ 0.5 < anomaly_score then .AGREE_HIGH
  else if rule_score < 0.2 ∧ anomaly_score < 0.3 then .AGREE_LOW
  else if 0.5 < rule_score ∧ anomaly_score < 0.3 then .RULE_ONLY
  else if rule_score < 0.2 ∧ 0.7 < anomaly_score then .ML_ONLY
  else .CONFLICT

/-- Output record of the fusion step (`FusionResult`). -/
structure FusionResult where
  hybrid_score : ℚ
  severity : Severity
  rule_score : ℚ
  anomaly_score : ℚ
  concordance : Concordance
  should_alert : Bool
deriving DecidableEq, Repr

/-- Source `compute_hybrid_score`: weighted average, concordance adjustment,
clamp, severity classification and alert decision. -/
def compute_hybrid_score (rule_score anomaly_score : ℚ)
    (rule_weight : ℚ := 0.6) (ml_weight : ℚ := 0.4)
    (alert_threshold : Severity := .MEDIUM) : FusionResult :=
  let hybrid := rule_weight * rule_score + ml_weight * anomaly_score
  let concordance := determine_concordance rule_score anomaly_score
  let hybrid :=
    if concordance = .AGREE_HIGH then min 1 (hybrid + 0.1)
    else if concordance = .ML_ONLY then hybrid * 0.7
    else hybrid
  let hybrid := max 0 (min 1 hybrid)
  let severity := classify_severity hybrid
  { hybrid_score := hybrid
    severity := severity
    rule_score := rule_score
    anomaly_score := anomaly_score
    concordance := concordance
    should_alert := severity_meets_threshold severity alert_threshold }

-- ---------------------------------------------------------------------------
-- Spec-side fusion (transcribed from the specification's words, §4.E /
-- claim C1, to be compared with the source embedding above)
-- ---------------------------------------------------------------------------

/-- Spec side: severity rank under the ordering
`LOW < MEDIUM < HIGH < CRITICAL`. -/
def sevRankSpec : Severity → ℕ
  | .LOW => 0
  | .MEDIUM => 1
  | .HIGH => 2
  | .CRITICAL => 3

/-- Spec side: concordance by first match in the stated order. -/
def concordanceSpec (rule ml : ℚ) : Concordance :=
  if 0.5 < rule ∧ 0.5 < ml then .AGREE_HIGH
  else if rule < 0.2 ∧ ml < 0.3 then .AGREE_LOW
  else if 0.5 < rule ∧ ml < 0.3 then .RULE_ONLY
  else if rule < 0.2 ∧ 0.7 < ml then .ML_ONLY
  else .CONFLICT

/-- Spec side: adjust `h` by `min(1, h + 0.1)` for `AGREE_HIGH` and by
`h · 0.7` for `ML_ONLY`; others unchanged. -/
def fusionAdjust (c : Concordance) (h : ℚ) : ℚ :=
  match c with
  | .AGREE_HIGH => min 1 (h + 0.1)
  | .ML_ONLY => h * 0.7
  | _ => h

/-- Spec side, following the claim's wording step by step:
`h ← w_r·rule + w_m·ml`; concordance by first match; adjust
(`AGREE_HIGH → min(1, h+0.1)`, `ML_ONLY → h·0.7`, others unchanged);
clamp to `[0,1]`; classify severity from `h`; alert iff the severity ranks
at or above the threshold. -/
def fusionSpec (rule ml wr wm : ℚ) (alert_threshold : Severity) : FusionResult :=
  let h := wr * rule + wm * ml
  let c := concordanceSpec rule ml
  let h := fusionAdjust c h
  let h := max 0 (min 1 h)
  let sev := classify_severity h
  { hybrid_score := h
    severity := sev
    rule_score := rule
    anomaly_score := ml
    concordance := c
    should_alert := decide (sevRankSpec alert_threshold ≤ sevRankSpec sev) }

lemma severity_meets_threshold_eq_rank (s t : Severity) :
    severity_meets_threshold s t = decide (sevRankSpec t ≤ sevRankSpec s) := by
  cases s <;> cases t <;> decide

lemma determine_concordance_eq_spec (r m : ℚ) :
    determine_concordance r m = concordanceSpec r m := rfl

lemma severityIndex_eq_rank (s : Severity) : severityIndex s = sevRankSpec s := by
  cases s <;> rfl

/-- C1: for rule and anomaly scores in `[0,1]` and any weights, the fusion
operation computes the weighted sum, determines concordance by first match
in the order AGREE_HIGH, AGREE_LOW, RULE_ONLY, ML_ONLY, CONFLICT, adjusts by
`min(1, h+0.1)` for AGREE_HIGH and `h*0.7` for ML_ONLY, clamps to `[0,1]`,
classifies severity, and alerts iff the severity ranks at or above the
threshold under `LOW < MEDIUM < HIGH < CRITICAL`: the source embedding
coincides with the step-by-step transcription of the claim. -/
theorem fusion_matches_spec (r m wr wm : ℚ) (t : Severity)
    (hr0 : 0 ≤ r) (hr1 : r ≤ 1) (hm0 : 0 ≤ m) (hm1 : m ≤ 1) :
    compute_hybrid_score r m wr wm t = fusionSpec r m wr wm t := by
  have hadj : ∀ (c : Concordance) (x : ℚ),
      (if c = .AGREE_HIGH then min 1 (x + 0.1)
       else if c = .ML_ONLY then x * 0.7 else x) = fusionAdjust c x := by
    intro c x; cases c <;> rfl
  simp only [compute_hybrid_score, fusionSpec, determine_concordance_eq_spec,
    severity_meets_threshold_eq_rank, hadj]

unseal Rat.ofScientific in
/-- Witness for C1 at the concrete input of end-to-end scenario 3. -/
theorem fusion_matches_spec_witness :
    compute_hybrid_score 0.7 0.7 0.6 0.4 .MEDIUM = fusionSpec 0.7 0.7 0.6 0.4 .MEDIUM :=
  fusion_matches_spec 0.7 0.7 0.6 0.4 .MEDIUM (by decide) (by decide) (by decide) (by decide)

/-- C8: severity classification is monotone with inclusive band lower
bounds, and for a fixed alert threshold the alert decision is monotone in
the severity's rank. -/
theorem classify_severity_monotone :
    (∀ a b : ℚ, a ≤ b →
      severityIndex (classify_severity a) ≤ severityIndex (classify_severity b))
    ∧ (∀ q : ℚ,
        (0.8 ≤ q → classify_severity q = .CRITICAL)
        ∧ (0.6 ≤ q → q < 0.8 → classify_severity q = .HIGH)
        ∧ (0.3 ≤ q → q < 0.6 → classify_severity q = .MEDIUM)
        ∧ (q < 0.3 → classify_severity q = .LOW))
    ∧ (∀ (t s1 s2 : Severity), severityIndex s1 ≤ severityIndex s2 →
        severity_meets_threshold s1 t = true → severity_meets_threshold s2 t = true) := by
  refine ⟨?_, ?_, ?_⟩
  · intro a b hab
    unfold classify_severity
    split_ifs with h1 h2 h3 h4 h5 h6 <;>
      simp only [severityIndex_eq_rank, sevRankSpec, not_le] at * <;>
      first | omega | linarith
  · intro q
    refine ⟨?_, ?_, ?_, ?_⟩ <;> intro h <;>
      first
      | (unfold classify_severity; split_ifs <;> first | rfl | linarith)
      | (intro h2; unfold classify_severity; split_ifs <;> first | rfl | linarith)
  · intro t s1 s2 hle h1
    simp only [severity_meets_threshold, decide_eq_true_eq] at *
    omega

unseal Rat.ofScientific in
/-- Witness for C8 at concrete inputs: monotone across the MEDIUM/CRITICAL
bands, the band values themselves, and alert monotonicity at MEDIUM. -/
theorem classify_severity_monotone_witness :
    severityIndex (classify_severity 0.3) ≤ severityIndex (classify_severity 0.8)
    ∧ classify_severity 0.8 = .CRITICAL
    ∧ classify_severity 0.6 = .HIGH
    ∧ classify_severity 0.3 = .MEDIUM
    ∧ classify_severity 0.2 = .LOW
    ∧ severity_meets_threshold .CRITICAL .MEDIUM = true :=
  ⟨classify_severity_monotone.1 0.3 0.8 (by decide),
   (classify_severity_monotone.2.1 0.8).1 (by decide),
   (classify_severity_monotone.2.1 0.6).2.1 (by decide) (by decide),
   (classify_severity_monotone.2.1 0.3).2.2.1 (by decide) (by decide),
   (classify_severity_monotone.2.1 0.2).2.2.2 (by decide),
   classify_severity_monotone.2.2 .MEDIUM .HIGH .CRITICAL (by decide)
     (by decide)⟩

-- ---------------------------------------------------------------------------
-- Events and timestamp ordering (backend/engine/rule_engine.py,
-- backend/engine/feature_engineer.py)
-- ---------------------------------------------------------------------------

/-- A raw `tourist_events` row, restricted to the fields the engine reads.
`timestamp` is the raw ISO-8601 string (`e.get("timestamp", "")`), used as
the sort key; `tsParsed` is the result of
`datetime.fromisoformat(str(ts).replace("Z", "+00:00")).timestamp()`,
with `Option.none` for an unparseable timestamp.  `latitude`/`longitude`
are `Option.none` when the field is missing, `None` or non-numeric
(every such case raises `KeyError`/`TypeError` inside `haversine_meters`,
which the caller catches). -/
structure Event where
  timestamp : String
  tsParsed : Option ℚ
  zone_state : String
  event_type : String
  latitude : Option ℚ
  longitude : Option ℚ
deriving DecidableEq, Repr

/-- Lexicographic strict order on char lists (Python string `<`,
comparing Unicode code points). -/
def charListLt : List Char → List Char → Bool
  | [], [] => false
  | [], _ :: _ => true
  | _ :: _, [] => false
  | a :: as, b :: bs => if a = b then charListLt as bs else decide (a < b)

/-- Python string `<` (lexicographic on code points). -/
def strLtB (a b : String) : Bool := charListLt a.data b.data

/-- Insert an event into an already-sorted list, after all events whose
key is `≤` its own (so that a left fold is a stable ascending sort, like
Python's `sorted(events, key=lambda e: e.get("timestamp", ""))`). -/
def insertByTs (e : Event) : List Event → List Event
  | [] => [e]
  | x :: xs => if strLtB e.timestamp x.timestamp then e :: x :: xs else x :: insertByTs e xs

/-- Python `sorted(events, key=lambda e: e.get("timestamp", ""))`: stable
ascending sort by the raw timestamp string. -/
def sortByTimestamp (events : List Event) : List Event :=
  events.foldl (fun acc e => insertByTs e acc) []

-- ---------------------------------------------------------------------------
-- Rule engine (backend/engine/rule_engine.py)
-- ---------------------------------------------------------------------------

/-- Result of evaluating a single rule (`RuleResult`). -/
structure RuleResult where
  rule_id : String
  triggered : Bool
  score : ℚ
  description : String
deriving DecidableEq, Repr

/-- Aggregate output of the rule engine (`RuleEngineOutput`). -/
structure RuleEngineOutput where
  rule_score : ℚ := 0
  triggered_rules : List String := []
  details : List RuleResult := []
  severity : Severity := .LOW
deriving DecidableEq, Repr

/-- Build a `RuleResult` the way every `_rule_*` evaluator does:
`score = s if triggered else 0.0`. -/
def mkRuleResult (id : String) (t : Bool) (s : ℚ) (d : String) : RuleResult :=
  { rule_id := id, triggered := t, score := if t then s else 0, description := d }

/-- The stateful scan of `_has_rapid_transition`, over the sorted events:
remember the most recent `SAFE` timestamp; on an `IN_DANGER` event with a
remembered `SAFE` time, fire if the gap is `≤ threshold`; events with an
unparseable timestamp are skipped. -/
def rapidScan (threshold : ℚ) : Option ℚ → List Event → Bool
  | _, [] => false
  | safeTs, e :: rest =>
    match e.tsParsed with
    | Option.none => rapidScan threshold safeTs rest
    | Option.some ts =>
      if e.zone_state = "SAFE" then rapidScan threshold (Option.some ts) rest
      else if e.zone_state = "IN_DANGER" then
        match safeTs with
        | Option.some s =>
          if ts - s ≤ threshold then true else rapidScan threshold safeTs rest
        | Option.none => rapidScan threshold safeTs rest
      else rapidScan threshold safeTs rest

/-- Source `_has_rapid_transition(events, threshold_seconds)`. -/
def has_rapid_transition (events : List Event) (threshold_seconds : ℚ := 10) : Bool :=
  rapidScan threshold_seconds Option.none (sortByTimestamp events)

/-- R1 predicate: `max_risk_timer >= 60 and danger_ratio > 0.5`
(Python `and` short-circuits; comparisons on non-numbers raise). -/
def cond_r1 (features : PDict) : Except Unit Bool := do
  let a ← pyGeNum (pyGet features "max_risk_timer" (.num 0)) 60
  if a then pyGtNum (pyGet features "danger_ratio" (.num 0)) 0.5 else pure false

/-- R2 predicate: `panic_count > 0`. -/
def cond_r2 (features : PDict) : Except Unit Bool :=
  pyGtNum (pyGet features "panic_count" (.num 0)) 0

/-- R3 predicate: `_has_rapid_transition(events, 10)` (cannot raise). -/
def cond_r3 (events : List Event) : Except Unit Bool :=
  pure (has_rapid_transition events 10)

/-- R4 predicate: `zone_transitions >= 3`. -/
def cond_r4 (features : PDict) : Except Unit Bool :=
  pyGeNum (pyGet features "zone_transitions" (.num 0)) 3

/-- R5 predicate: `max_risk_timer >= 120`. -/
def cond_r5 (features : PDict) : Except Unit Bool :=
  pyGeNum (pyGet features "max_risk_timer" (.num 0)) 120

/-- R6 predicate:
`latest_zone == "IN_DANGER" and risk_timer >= 30 and not has_exit`
(`==` never raises and short-circuits the rest; `>=` raises on
non-numbers). -/
def cond_r6 (features : PDict) (events : List Event) : Except Unit Bool :=
  if pyEq (pyGet features "latest_zone_state" (.str "")) (.str "IN_DANGER") then
    (pyGeNum (pyGet features "max_risk_timer" (.num 0)) 30).map
      (fun b => b && !(events.any (fun e => e.event_type == "ZONE_EXIT")))
  else pure false

/-- Source `_rule_r1_sustained_danger`. -/
def rule_r1_sustained_danger (features : PDict) : Except Unit RuleResult :=
  (cond_r1 features).map
    (fun t => mkRuleResult "R1" t 0.8 "Sustained danger zone exposure (>=60s)")

/-- Source `_rule_r2_panic`. -/
def rule_r2_panic (features : PDict) : Except Unit RuleResult :=
  (cond_r2 features).map (fun t => mkRuleResult "R2" t 1.0 "Panic button activated")

/-- Source `_rule_r3_rapid_transition`. -/
def rule_r3_rapid_transition (features : PDict) (events : List Event) :
    Except Unit RuleResult :=
  (cond_r3 events).map
    (fun t => mkRuleResult "R3" t 0.7 "Rapid safe-to-danger transition (<=10s)")

/-- Source `_rule_r4_erratic_movement`. -/
def rule_r4_erratic_movement (features : PDict) : Except Unit RuleResult :=
  (cond_r4 features).map
    (fun t => mkRuleResult "R4" t 0.6 "Erratic zone transitions (>=3 in 2 min)")

/-- Source `_rule_r5_extended_danger`. -/
def rule_r5_extended_danger (features : PDict) : Except Unit RuleResult :=
  (cond_r5 features).map
    (fun t => mkRuleResult "R5" t 0.9 "Extended danger exposure (>=120s cumulative)")

/-- Source `_rule_r6_danger_no_exit`. -/
def rule_r6_danger_no_exit (features : PDict) (events : List Event) :
    Except Unit RuleResult :=
  (cond_r6 features events).map
    (fun t => mkRuleResult "R6" t 0.75 "In danger zone >=30s with no exit")

/-- Source `ALL_RULES` applied in order (rules needing raw events receive them). -/
def ruleExcepts (features : PDict) (events : List Event) :
    List (Except Unit RuleResult) :=
  [ rule_r1_sustained_danger features,
    rule_r2_panic features,
    rule_r3_rapid_transition features events,
    rule_r4_erratic_movement features,
    rule_r5_extended_danger features,
    rule_r6_danger_no_exit features events ]

/-- The `try/except` loop of `evaluate_rules`: a rule that raises is
logged and contributes nothing; the rest still evaluate. -/
def collectOks {α : Type} : List (Except Unit α) → List α
  | [] => []
  | .ok r :: l => r :: collectOks l
  | .error _ :: l => collectOks l

/-- Python `max(r.score for r in triggered)` (callers guarantee
nonemptiness; on `[]` we return 0, a case `evaluate_rules` never hits). -/
def listMaxScore : List RuleResult → ℚ
  | [] => 0
  | r :: l => l.foldl (fun acc x => max acc x.score) r.score

/-- Source `evaluate_rules`: evaluate all rules, drop the ones that raised,
composite score = max triggered score boosted by `0.1` per additional
concurrent trigger, capped at 1. -/
def evaluate_rules (features : PDict) (events : List Event := []) :
    RuleEngineOutput :=
  let results := collectOks (ruleExcepts features events)
  let triggered := results.filter (fun r => r.triggered)
  if triggered.isEmpty then
    { rule_score := 0, triggered_rules := [], details := results, severity := .LOW }
  else
    let score := listMaxScore triggered
    let score :=
      if 2 ≤ triggered.length then
        min 1 (score + 0.1 * ((triggered.length : ℚ) - 1))
      else score
    { rule_score := score
      triggered_rules := triggered.map (fun r => r.rule_id)
      details := results
      severity := classify_severity score }

/-- Shorthand `T`: the triggered rules in the rule engine's output. -/
def triggered_of (features : PDict) (events : List Event) : List RuleResult :=
  (evaluate_rules features events).details.filter (fun r => r.triggered)

lemma except_map_ok {α β : Type} {f : α → β} {c : Except Unit α} {b : β}
    (h : Except.map f c = .ok b) : ∃ a, c = .ok a ∧ b = f a := by
  cases c with
  | error e => simp [Except.map] at h
  | ok a => exact ⟨a, rfl, by simpa [Except.map] using h.symm⟩

lemma mem_collectOks {α : Type} {r : α} :
    ∀ {L : List (Except Unit α)}, r ∈ collectOks L → Except.ok r ∈ L := by
  intro L h
  induction L with
  | nil => simpa [collectOks] using h
  | cons x l ih =>
    cases x with
    | ok a =>
      rw [collectOks] at h
      rcases List.mem_cons.mp h with h | h
      · exact h ▸ List.mem_cons_self _ _
      · exact List.mem_cons_of_mem _ (ih h)
    | error e =>
      rw [collectOks] at h
      exact List.mem_cons_of_mem _ (ih h)

lemma collectOks_ids_sublist :
    ∀ {L : List (Except Unit RuleResult)} {ids : List String},
    List.Forall₂ (fun x id => ∀ r, x = Except.ok r → r.rule_id = id) L ids →
    ((collectOks L).map (fun r => r.rule_id)).Sublist ids := by
  intro L ids h
  induction h with
  | nil => simp [collectOks]
  | @cons x id L' ids' hx _ ih =>
    cases x with
    | error e => simpa [collectOks] using ih.cons id
    | ok r => simpa [collectOks, hx r rfl] using ih.cons₂ id

lemma ruleExcepts_ids (features : PDict) (events : List Event) :
    List.Forall₂ (fun x id => ∀ r, x = Except.ok r → r.rule_id = id)
      (ruleExcepts features events) ["R1", "R2", "R3", "R4", "R5", "R6"] := by
  unfold ruleExcepts rule_r1_sustained_danger rule_r2_panic rule_r3_rapid_transition
    rule_r4_erratic_movement rule_r5_extended_danger rule_r6_danger_no_exit
  refine .cons ?_ (.cons ?_ (.cons ?_ (.cons ?_ (.cons ?_ (.cons ?_ .nil))))) <;>
  · intro r hr
    obtain ⟨t, -, hb⟩ := except_map_ok hr
    rw [hb]; rfl

lemma collectOks_score_le_one (features : PDict) (events : List Event) :
    ∀ r ∈ collectOks (ruleExcepts features events), r.score ≤ 1 := by
  intro r hr
  have hmem := mem_collectOks hr
  simp only [ruleExcepts, rule_r1_sustained_danger, rule_r2_panic,
    rule_r3_rapid_transition, rule_r4_erratic_movement, rule_r5_extended_danger,
    rule_r6_danger_no_exit, List.mem_cons, List.not_mem_nil, or_false] at hmem
  rcases hmem with h | h | h | h | h | h <;>
  · obtain ⟨t, -, hb⟩ := except_map_ok h.symm
    rw [hb]
    simp only [mkRuleResult]
    cases t <;> norm_num

lemma foldl_max_le {l : List RuleResult} {acc : ℚ} (ha : acc ≤ 1)
    (h : ∀ r ∈ l, r.score ≤ 1) :
    l.foldl (fun a x => max a x.score) acc ≤ 1 := by
  induction l generalizing acc with
  | nil => simpa
  | cons x t ih =>
    simp only [List.foldl_cons]
    exact ih (max_le ha (h x (List.mem_cons_self x t)))
      (fun r hr => h r (List.mem_cons_of_mem _ hr))

lemma listMaxScore_le_one {l : List RuleResult} (h : ∀ r ∈ l, r.score ≤ 1)
    (hne : l ≠ []) : listMaxScore l ≤ 1 := by
  cases l with
  | nil => exact absurd rfl hne
  | cons r t =>
    exact foldl_max_le (h r (List.mem_cons_self r t))
      (fun x hx => h x (List.mem_cons_of_mem _ hx))

/-- C2: letting `T` be the triggered rules of the engine's output, an empty
`T` gives `rule_score = 0` and severity `LOW`; a nonempty `T` gives
`rule_score = min(1, max score + 0.1·(|T|−1))`; and `triggered_rules` is
exactly the triggered rules' IDs, a sublist of the fixed order `R1..R6`. -/
theorem evaluate_rules_composite (features : PDict) (events : List Event) :
    (triggered_of features events = [] →
      (evaluate_rules features events).rule_score = 0 ∧
      (evaluate_rules features events).severity = .LOW)
    ∧ (triggered_of features events ≠ [] →
      (evaluate_rules features events).rule_score =
        min 1 (listMaxScore (triggered_of features events)
          + 0.1 * (((triggered_of features events).length : ℚ) - 1)))
    ∧ (evaluate_rules features events).triggered_rules
        = (triggered_of features events).map (fun r => r.rule_id)
    ∧ ((evaluate_rules features events).triggered_rules).Sublist
        ["R1", "R2", "R3", "R4", "R5", "R6"] := by
  by_cases hE :
    (collectOks (ruleExcepts features events)).filter (fun r => r.triggered) = []
  · have h1 : evaluate_rules features events =
        { rule_score := 0, triggered_rules := [],
          details := collectOks (ruleExcepts features events), severity := .LOW } := by
      simp [evaluate_rules, hE]
    have hT : triggered_of features events = [] := by
      simp [triggered_of, h1, hE]
    refine ⟨fun _ => ⟨by simp [h1], by simp [h1]⟩, fun hne => absurd hT hne,
      by simp [h1, hT], by simp [h1]⟩
  · have hIE : ((collectOks (ruleExcepts features events)).filter
        (fun r => r.triggered)).isEmpty = false := by
      simpa [List.isEmpty_iff] using hE
    have h1 : evaluate_rules features events =
        { rule_score :=
            (if 2 ≤ ((collectOks (ruleExcepts features events)).filter
                (fun r => r.triggered)).length then
              min 1 (listMaxScore ((collectOks (ruleExcepts features events)).filter
                  (fun r => r.triggered))
                + 0.1 * ((((collectOks (ruleExcepts features events)).filter
                  (fun r => r.triggered)).length : ℚ) - 1))
            else listMaxScore ((collectOks (ruleExcepts features events)).filter
                (fun r => r.triggered)))
          triggered_rules := ((collectOks (ruleExcepts features events)).filter
              (fun r => r.triggered)).map (fun r => r.rule_id)
          details := collectOks (ruleExcepts features events)
          severity := classify_severity
            (if 2 ≤ ((collectOks (ruleExcepts features events)).filter
                (fun r => r.triggered)).length then
              min 1 (listMaxScore ((collectOks (ruleExcepts features events)).filter
                  (fun r => r.triggered))
                + 0.1 * ((((collectOks (ruleExcepts features events)).filter
                  (fun r => r.triggered)).length : ℚ) - 1))
            else listMaxScore ((collectOks (ruleExcepts features events)).filter
                (fun r => r.triggered))) } := by
      rw [evaluate_rules]
      simp only [hIE, Bool.false_eq_true, if_false]
    have hT : triggered_of features events =
        (collectOks (ruleExcepts features events)).filter (fun r => r.triggered) := by
      simp [triggered_of, h1]
    have hscore : (evaluate_rules features events).rule_score =
        min 1 (listMaxScore (triggered_of features events)
          + 0.1 * (((triggered_of features events).length : ℚ) - 1)) := by
      rw [h1, hT]
      simp only []
      by_cases h2 : 2 ≤ ((collectOks (ruleExcepts features events)).filter
          (fun r => r.triggered)).length
      · simp [h2]
      · have hn : ((collectOks (ruleExcepts features events)).filter
            (fun r => r.triggered)).length = 1 := by
          have h0 : ((collectOks (ruleExcepts features events)).filter
              (fun r => r.triggered)).length ≠ 0 := by
            simpa [List.length_eq_zero] using hE
          omega
        have hM : listMaxScore ((collectOks (ruleExcepts features events)).filter
            (fun r => r.triggered)) ≤ 1 :=
          listMaxScore_le_one
            (fun r hr => collectOks_score_le_one features events r
              (List.mem_of_mem_filter hr)) hE
        rw [if_neg h2, hn]
        norm_num
        exact hM
    refine ⟨fun habs => absurd (hT ▸ habs) hE, fun _ => hscore, ?_, ?_⟩
    · rw [h1, hT]
    · rw [h1]
      exact ((List.filter_sublist _).map _).trans
        (collectOks_ids_sublist (ruleExcepts_ids features events))

unseal Rat.add Rat.mul Rat.sub Rat.inv Rat.ofScientific in
/-- Witness for C2: one panic event in the window triggers exactly R2. -/
theorem evaluate_rules_composite_witness :
    triggered_of [("panic_count", PVal.num 1)] [] ≠ []
    ∧ (evaluate_rules [("panic_count", PVal.num 1)] []).rule_score =
        min 1 (listMaxScore (triggered_of [("panic_count", PVal.num 1)] [])
          + 0.1 * (((triggered_of [("panic_count", PVal.num 1)] []).length : ℚ) - 1)) :=
  ⟨by decide,
   (evaluate_rules_composite [("panic_count", PVal.num 1)] []).2.1 (by decide)⟩

unseal Rat.sub Rat.add Rat.mul Rat.inv Rat.ofScientific in
/-- C6: R3's predicate is the stateful scan over the timestamp-sorted
events; a SAFE→IN_DANGER gap of exactly 10 s triggers, a gap of
10.0001 s does not, and an event with an unparseable timestamp is skipped
by the scan without aborting it. -/
theorem rapid_transition_boundary :
    (has_rapid_transition
      [{ timestamp := "2024-01-01T00:00:00+00:00",
         tsParsed := Option.some 1704067200, zone_state := "SAFE",
         event_type := "MOVE", latitude := Option.none, longitude := Option.none },
       { timestamp := "2024-01-01T00:00:10+00:00",
         tsParsed := Option.some 1704067210, zone_state := "IN_DANGER",
         event_type := "ZONE_ENTER", latitude := Option.none,
         longitude := Option.none }] 10 = true)
    ∧ (has_rapid_transition
      [{ timestamp := "2024-01-01T00:00:00+00:00",
         tsParsed := Option.some 1704067200, zone_state := "SAFE",
         event_type := "MOVE", latitude := Option.none, longitude := Option.none },
       { timestamp := "2024-01-01T00:00:10.000100+00:00",
         tsParsed := Option.some (1704067210 + 1/10000), zone_state := "IN_DANGER",
         event_type := "ZONE_ENTER", latitude := Option.none,
         longitude := Option.none }] 10 = false)
    ∧ (∀ (thr : ℚ) (s : Option ℚ) (pre post : List Event) (e : Event),
        e.tsParsed = Option.none →
        rapidScan thr s (pre ++ e :: post) = rapidScan thr s (pre ++ post)) := by
  refine ⟨by decide, by decide, ?_⟩
  intro thr s pre post e he
  induction pre generalizing s with
  | nil =>
    simp only [List.nil_append]
    rw [rapidScan, he]
  | cons x xs ih =>
    simp only [List.cons_append]
    rw [rapidScan, rapidScan]
    cases hx : x.tsParsed with
    | none => exact ih s
    | some ts =>
      by_cases hsafe : x.zone_state = "SAFE"
      · simpa [hsafe] using ih (Option.some ts)
      · by_cases hd : x.zone_state = "IN_DANGER"
        · cases s with
          | none => simpa [hsafe, hd] using ih Option.none
          | some sv =>
            by_cases hle : ts - sv ≤ thr
            · simp [hsafe, hd, hle]
            · simpa [hsafe, hd, hle] using ih (Option.some sv)
        · simpa [hsafe, hd] using ih s

/-- Witness for C6's skip property at a concrete unparseable event. -/
theorem rapid_transition_boundary_witness :
    rapidScan 10 Option.none
      ([] ++ ({ timestamp := "not-a-timestamp", tsParsed := Option.none,
                zone_state := "SAFE", event_type := "MOVE",
                latitude := Option.none, longitude := Option.none } : Event) :: [])
    = rapidScan 10 Option.none ([] ++ []) :=
  rapid_transition_boundary.2.2 10 Option.none [] [] _ rfl

-- ---------------------------------------------------------------------------
-- Feature engineer (backend/engine/feature_engineer.py)
-- ---------------------------------------------------------------------------

/-- Source `FEATURE_COLUMNS`: the canonical 12-feature ordering. -/
def FEATURE_COLUMNS : List String :=
  ["event_count", "unique_zones", "danger_ratio", "caution_ratio",
   "panic_count", "zone_transitions", "max_risk_timer", "avg_risk_timer",
   "lat_std", "lng_std", "distance_traveled", "speed_estimate"]

/-- Source `haversine_meters` including its behaviour on invalid operands: four
numeric arguments produce the Haversine great-circle distance (abstracted
trigonometric kernel `hav`); a missing / `None` / non-numeric operand
raises (`KeyError` at the subscript or `TypeError` inside
`math.radians`), modelled as `Except.error`. -/
def haversine_meters (hav : ℚ → ℚ → ℚ → ℚ → ℚ) :
    Option ℚ → Option ℚ → Option ℚ → Option ℚ → Except Unit ℚ
  | Option.some lat1, Option.some lng1, Option.some lat2, Option.some lng2 =>
    .ok (hav lat1 lng1 lat2 lng2)
  | _, _, _, _ => .error ()

/-- The summation loop of `compute_distance_traveled` over the sorted
events: `try: total += haversine_meters(...) except (KeyError, TypeError):
continue`. -/
def segmentSum (hav : ℚ → ℚ → ℚ → ℚ → ℚ) : List Event → ℚ
  | a :: b :: rest =>
    (match haversine_meters hav a.latitude a.longitude b.latitude b.longitude with
     | .ok d => d
     | .error _ => 0) + segmentSum hav (b :: rest)
  | _ => 0

/-- Source `compute_distance_traveled`: sum of consecutive Haversine distances
over the timestamp-ordered events. -/
def compute_distance_traveled (hav : ℚ → ℚ → ℚ → ℚ → ℚ)
    (events : List Event) : ℚ :=
  segmentSum hav (sortByTimestamp events)

/-- The consecutive pairs of an event list whose four coordinates are all
present and numeric — exactly the segments the summation keeps. -/
def validSegments : List Event → List (ℚ × ℚ × ℚ × ℚ)
  | a :: b :: rest =>
    (match a.latitude, a.longitude, b.latitude, b.longitude with
     | Option.some la, Option.some lo, Option.some lb, Option.some lo2 =>
       [(la, lo, lb, lo2)]
     | _, _, _, _ => []) ++ validSegments (b :: rest)
  | _ => []

/-- The dict-building loop of `enrich_features`: build the output mapping
in `FEATURE_COLUMNS` order, propagating the first exception (Python has no
try/except here). -/
def exceptMapList {α β : Type} (f : α → Except Unit β) : List α → Except Unit (List β)
  | [] => .ok []
  | a :: l =>
    match f a with
    | .error e => .error e
    | .ok b =>
      match exceptMapList f l with
      | .error e => .error e
      | .ok bs => .ok (b :: bs)

/-- Source `enrich_features(agg_row, raw_events, window_seconds)`: compute
distance and speed, then build the mapping keyed by `FEATURE_COLUMNS`
(`float(agg_row.get(col, 0) or 0)` for the aggregated columns). -/
def enrich_features (hav : ℚ → ℚ → ℚ → ℚ → ℚ) (agg_row : PDict)
    (raw_events : List Event) (window_seconds : ℚ := 120) :
    Except Unit (List (String × ℚ)) :=
  let distance := compute_distance_traveled hav raw_events
  let speed := if 0 < window_seconds then distance / window_seconds else 0
  exceptMapList (fun col =>
    if col = "distance_traveled" then .ok (col, distance)
    else if col = "speed_estimate" then .ok (col, speed)
    else (pyFloat (pyGet agg_row col (.num 0))).map (fun q => (col, q)))
    FEATURE_COLUMNS

lemma exceptMapList_forall2 {α β : Type} {f : α → Except Unit β} :
    ∀ {L : List α} {m : List β}, exceptMapList f L = .ok m →
    List.Forall₂ (fun a b => f a = .ok b) L m := by
  intro L
  induction L with
  | nil => intro m h; rw [exceptMapList] at h; cases h; exact .nil
  | cons a l ih =>
    intro m h
    rw [exceptMapList] at h
    cases hfa : f a with
    | error e => rw [hfa] at h; cases h
    | ok b =>
      rw [hfa] at h
      cases hrest : exceptMapList f l with
      | error e => rw [hrest] at h; cases h
      | ok bs => rw [hrest] at h; cases h; exact .cons hfa (ih hrest)

lemma forall2_map_fst {f : String → Except Unit (String × ℚ)}
    (hf : ∀ c p, f c = .ok p → p.1 = c) :
    ∀ {L : List String} {m : List (String × ℚ)},
    List.Forall₂ (fun a b => f a = .ok b) L m → m.map Prod.fst = L := by
  intro L m h
  induction h with
  | nil => rfl
  | cons ha _ ih => simp [ih, hf _ _ ha]

lemma forall2_lookup {f : String → Except Unit (String × ℚ)}
    (hf : ∀ c p, f c = .ok p → p.1 = c) :
    ∀ {L : List String} {m : List (String × ℚ)},
    List.Forall₂ (fun a b => f a = .ok b) L m →
    ∀ {c : String} {v : ℚ}, f c = .ok (c, v) → c ∈ L →
    m.lookup c = Option.some v := by
  intro L m h
  induction h with
  | nil => intro c v _ hmem; cases hmem
  | @cons a b L' m' ha _ ih =>
    intro c v hc hmem
    obtain ⟨k, w⟩ := b
    have hk : k = a := hf a (k, w) ha
    subst hk
    by_cases hac : c = k
    · subst hac
      rw [ha] at hc
      cases hc
      simp [List.lookup]
    · have hmem' : c ∈ L' := by
        rcases List.mem_cons.mp hmem with h | h
        · exact absurd h hac
        · exact h
      have hbeq : (c == k) = false := beq_false_of_ne hac
      simp [List.lookup, hbeq]
      exact ih hc hmem'

lemma exceptMapList_isOk {α β : Type} {f : α → Except Unit β} :
    ∀ {L : List α}, (∀ a ∈ L, (f a).isOk = true) →
    (exceptMapList f L).isOk = true := by
  intro L
  induction L with
  | nil => intro _; rfl
  | cons a l ih =>
    intro h
    rw [exceptMapList]
    cases hfa : f a with
    | error e =>
      have := h a (List.mem_cons_self a l)
      rw [hfa] at this
      cases this
    | ok b =>
      cases hrest : exceptMapList f l with
      | error e =>
        have := ih (fun x hx => h x (List.mem_cons_of_mem _ hx))
        rw [hrest] at this
        cases this
      | ok bs => rfl

/-- C9 counterexample: on an invalid (missing / non-numeric) operand the
geodesic utility does NOT yield 0 — it raises, which the caller catches.
Stated at a concrete kernel and concrete operands. -/
theorem haversine_invalid_not_zero :
    haversine_meters (fun _ _ _ _ => 0) Option.none (Option.some 0)
      (Option.some 0) (Option.some 0) = Except.error ()
    ∧ haversine_meters (fun _ _ _ _ => 0) Option.none (Option.some 0)
      (Option.some 0) (Option.some 0) ≠ Except.ok 0 := by
  exact ⟨rfl, by intro h; simp [haversine_meters] at h⟩

/-- C9 (amended): the utility raises on an invalid operand, the caller
catches and skips that segment, and the distance traveled equals the sum
of the kernel over exactly the valid consecutive pairs of the
timestamp-sorted events. -/
theorem compute_distance_traveled_valid_segments
    (hav : ℚ → ℚ → ℚ → ℚ → ℚ) (events : List Event) :
    compute_distance_traveled hav events =
      ((validSegments (sortByTimestamp events)).map
        (fun p => hav p.1 p.2.1 p.2.2.1 p.2.2.2)).sum := by
  rw [compute_distance_traveled]
  generalize sortByTimestamp events = l
  induction l with
  | nil => rfl
  | cons a t ih =>
    cases t with
    | nil => rfl
    | cons b rest =>
      rw [segmentSum, validSegments]
      rw [ih]
      cases ha : a.latitude <;> cases hb : a.longitude <;>
        cases hc : b.latitude <;> cases hd : b.longitude <;>
        simp [haversine_meters]

lemma lookup_mem {l : PDict} : ∀ {k : String} {v : PVal},
    l.lookup k = Option.some v → (k, v) ∈ l := by
  induction l with
  | nil => intro k v h; cases h
  | cons p t ih =>
    intro k v h
    obtain ⟨k', v'⟩ := p
    rw [List.lookup] at h
    cases hbeq : (k == k') with
    | true =>
      rw [hbeq] at h
      cases h
      have : k = k' := eq_of_beq hbeq
      subst this
      exact List.mem_cons_self _ _
    | false =>
      rw [hbeq] at h
      exact List.mem_cons_of_mem _ (ih h)

/-- C7: `Enrich` produces exactly the 12 canonical feature names; missing
aggregated inputs become `0.0`; `speed_estimate · windowSeconds =
distance_traveled` when `windowSeconds > 0`, and `speed_estimate = 0`
otherwise.  (For any row whose stored values convert — every
data-model row — enrichment succeeds and so produces the mapping.) -/
theorem enrich_features_canonical (hav : ℚ → ℚ → ℚ → ℚ → ℚ) (agg_row : PDict)
    (raw_events : List Event) (w : ℚ) :
    ((∀ p ∈ agg_row, (pyFloat p.2).isOk = true) →
      (enrich_features hav agg_row raw_events w).isOk = true)
    ∧ (∀ m, enrich_features hav agg_row raw_events w = .ok m →
        m.map Prod.fst = FEATURE_COLUMNS
        ∧ (∀ col ∈ FEATURE_COLUMNS, col ≠ "distance_traveled" →
            col ≠ "speed_estimate" → agg_row.lookup col = Option.none →
            m.lookup col = Option.some 0)
        ∧ (0 < w → ∃ s d, m.lookup "speed_estimate" = Option.some s
            ∧ m.lookup "distance_traveled" = Option.some d ∧ s * w = d)
        ∧ (w ≤ 0 → m.lookup "speed_estimate" = Option.some 0)) := by
  have hf : ∀ c p, (fun col =>
      if col = "distance_traveled" then
        Except.ok (col, compute_distance_traveled hav raw_events)
      else if col = "speed_estimate" then
        Except.ok (col,
          if 0 < w then compute_distance_traveled hav raw_events / w else 0)
      else (pyFloat (pyGet agg_row col (.num 0))).map (fun q => (col, q))) c
      = .ok p → p.1 = c := by
    intro c p hc
    by_cases h1 : c = "distance_traveled"
    · simp only [h1, if_true] at hc
      cases hc; exact h1.symm
    · by_cases h2 : c = "speed_estimate"
      · simp only [h1, h2, if_false, if_true] at hc
        cases hc; exact h2.symm
      · simp only [h1, h2, if_false] at hc
        obtain ⟨q, -, hb⟩ := except_map_ok hc
        rw [hb]
  constructor
  · intro hrow
    rw [enrich_features]
    apply exceptMapList_isOk
    intro col _
    by_cases h1 : col = "distance_traveled"
    · simp only [h1, if_true]
      rfl
    · by_cases h2 : col = "speed_estimate"
      · simp only [h1, h2, if_false, if_true]
        rfl
      · simp only [h1, h2, if_false]
        rw [pyGet]
        cases hl : agg_row.lookup col with
        | none => rfl
        | some v =>
          have hv : (pyFloat v).isOk = true := hrow (col, v) (lookup_mem hl)
          simp only [Option.getD_some]
          cases hpv : pyFloat v with
          | error e => rw [hpv] at hv; cases hv
          | ok q => rfl
  · intro m hm
    rw [enrich_features] at hm
    have h2 := exceptMapList_forall2 hm
    refine ⟨forall2_map_fst hf h2, ?_, ?_, ?_⟩
    · intro col hcol hnd hns hnone
      refine forall2_lookup hf h2 ?_ hcol
      simp only [hnd, hns, if_false]
      simp [pyGet, hnone, pyFloat, Except.map]
    · intro hw
      refine ⟨compute_distance_traveled hav raw_events / w,
        compute_distance_traveled hav raw_events, ?_, ?_, ?_⟩
      · refine forall2_lookup hf h2 ?_ (by decide)
        simp [hw]
      · refine forall2_lookup hf h2 ?_ (by decide)
        simp
      · exact div_mul_cancel₀ _ (ne_of_gt hw)
    · intro hw
      refine forall2_lookup hf h2 ?_ (by decide)
      simp [not_lt.mpr hw]

unseal Rat.add Rat.mul Rat.sub Rat.inv Rat.ofScientific in
/-- Witness for C7 at a concrete row (one aggregated field present, the
rest missing) and an empty event list. -/
theorem enrich_features_canonical_witness :
    (enrich_features (fun _ _ _ _ => 0) [("event_count", PVal.num 5)] [] 120).isOk = true
    ∧ ([("event_count", (5:ℚ)), ("unique_zones", 0), ("danger_ratio", 0),
        ("caution_ratio", 0), ("panic_count", 0), ("zone_transitions", 0),
        ("max_risk_timer", 0), ("avg_risk_timer", 0), ("lat_std", 0),
        ("lng_std", 0), ("distance_traveled", 0),
        ("speed_estimate", 0)].map Prod.fst = FEATURE_COLUMNS)
    ∧ (∃ s d,
        List.lookup "speed_estimate"
          [("event_count", (5:ℚ)), ("unique_zones", 0), ("danger_ratio", 0),
           ("caution_ratio", 0), ("panic_count", 0), ("zone_transitions", 0),
           ("max_risk_timer", 0), ("avg_risk_timer", 0), ("lat_std", 0),
           ("lng_std", 0), ("distance_traveled", 0), ("speed_estimate", 0)]
          = Option.some s
        ∧ List.lookup "distance_traveled"
          [("event_count", (5:ℚ)), ("unique_zones", 0), ("danger_ratio", 0),
           ("caution_ratio", 0), ("panic_count", 0), ("zone_transitions", 0),
           ("max_risk_timer", 0), ("avg_risk_timer", 0), ("lat_std", 0),
           ("lng_std", 0), ("distance_traveled", 0), ("speed_estimate", 0)]
          = Option.some d
        ∧ s * 120 = d) :=
  have h := enrich_features_canonical (fun _ _ _ _ => 0)
    [("event_count", PVal.num 5)] [] 120
  have h2 := h.2
    [("event_count", (5:ℚ)), ("unique_zones", 0), ("danger_ratio", 0),
     ("caution_ratio", 0), ("panic_count", 0), ("zone_transitions", 0),
     ("max_risk_timer", 0), ("avg_risk_timer", 0), ("lat_std", 0),
     ("lng_std", 0), ("distance_traveled", 0), ("speed_estimate", 0)] (by rfl)
  ⟨h.1 (by decide), h2.1, h2.2.2.1 (by decide)⟩

-- ---------------------------------------------------------------------------
-- Anomaly detector (backend/engine/isolation_forest.py)
-- ---------------------------------------------------------------------------

/-- An estimator as the scorer uses it: `decision_function` restricted to
one feature row (the trained IsolationForest's scoring function). -/
abbrev EstimatorFn := List ℚ → ℚ

/-- The mutable state of `AnomalyDetector` (the remembered path only
feeds `reload`, which no claim exercises). -/
structure AnomalyDetector where
  model : Option EstimatorFn
  threshold : ℚ
  feature_columns : List String
  model_version : String
  training_samples : ℕ

/-- A deserialized bundle as the heterogeneous dict `joblib.load`
returns: `model` is read by subscript (`KeyError` when absent, modelled
by `Option.none`); the other fields are read via `.get` with defaults. -/
structure ModelBundle where
  model : Option EstimatorFn
  threshold : Option ℚ
  feature_columns : Option (List String)
  model_version : Option String
  training_samples : Option ℕ

/-- The file system seen by `load_model` at a path: `Option.none` = no
file; `Option.some Option.none` = file exists but `joblib.load` raises
(corrupt bundle); `Option.some (Option.some b)` = deserializes to `b`. -/
abbrev BundleFS := String → Option (Option ModelBundle)

/-- Source `load_model`: missing file warns and returns `False`; a corrupt
bundle logs and returns `False`; on success publish the five fields
(`bundle["model"]` is the first statement in the `try`, so a bundle
without a `"model"` key also fails with the state untouched). -/
def load_model (fs : BundleFS) (d : AnomalyDetector) (path : String) :
    Bool × AnomalyDetector :=
  match fs path with
  | Option.none => (false, d)
  | Option.some Option.none => (false, d)
  | Option.some (Option.some b) =>
    match b.model with
    | Option.none => (false, d)
    | Option.some m =>
      (true,
       { model := Option.some m
         threshold := b.threshold.getD 0
         feature_columns := b.feature_columns.getD FEATURE_COLUMNS
         model_version := b.model_version.getD "v1"
         training_samples := b.training_samples.getD 0 })

/-- Source `_sigmoid_normalise`: `np.clip(1 / (1 + np.exp(steepness * raw)), 0, 1)`
(`expF` abstracts the float exponential; `np.clip(x, 0, 1) =
min(1, max(0, x))`). -/
def sigmoid_normalise (expF : ℚ → ℚ) (raw_score : ℚ) (steepness : ℚ := 5) : ℚ :=
  min 1 (max 0 (1 / (1 + expF (steepness * raw_score))))

/-- Source `AnomalyDetector.predict`: `0.0` when no model is loaded; otherwise
build the row `[features.get(col, 0.0) for col in feature_columns]`,
score it with the estimator and sigmoid-normalise. -/
def predict (expF : ℚ → ℚ) (d : AnomalyDetector)
    (features : List (String × ℚ)) : ℚ :=
  match d.model with
  | Option.none => 0
  | Option.some m =>
    sigmoid_normalise expF
      (m (d.feature_columns.map (fun col => (features.lookup col).getD 0)))

/-- C4: with no model loaded `predict` returns exactly `0.0`; with a
model loaded it returns `clip(1 / (1 + exp(5·r)), 0, 1)` of the raw
decision-function score `r`, a value in `[0, 1]`. -/
theorem predict_contract (expF : ℚ → ℚ) (d : AnomalyDetector)
    (features : List (String × ℚ)) :
    (d.model = Option.none → predict expF d features = 0)
    ∧ (∀ m, d.model = Option.some m →
        predict expF d features =
          min 1 (max 0 (1 / (1 + expF (5 *
            m (d.feature_columns.map (fun col => (features.lookup col).getD 0))))))
        ∧ 0 ≤ predict expF d features
        ∧ predict expF d features ≤ 1) := by
  constructor
  · intro h
    simp [predict, h]
  · intro m h
    have hp : predict expF d features =
        min 1 (max 0 (1 / (1 + expF (5 *
          m (d.feature_columns.map (fun col => (features.lookup col).getD 0)))))) := by
      simp [predict, h, sigmoid_normalise]
    refine ⟨hp, ?_, ?_⟩
    · rw [hp]
      exact le_min (by norm_num) (le_max_left 0 _)
    · rw [hp]
      exact min_le_left 1 _

unseal Rat.add Rat.mul Rat.inv in
/-- Witness for C4: an unloaded detector scores 0; a loaded one stays in
`[0, 1]` (concrete estimator and exponential). -/
theorem predict_contract_witness :
    predict (fun _ => 3) ⟨Option.none, 0, FEATURE_COLUMNS, "none", 0⟩ [] = 0
    ∧ 0 ≤ predict (fun _ => 3)
        ⟨Option.some (fun _ => 0), 0, FEATURE_COLUMNS, "v1", 0⟩ []
    ∧ predict (fun _ => 3)
        ⟨Option.some (fun _ => 0), 0, FEATURE_COLUMNS, "v1", 0⟩ [] ≤ 1 :=
  ⟨(predict_contract (fun _ => 3) ⟨Option.none, 0, FEATURE_COLUMNS, "none", 0⟩ []).1 rfl,
   ((predict_contract (fun _ => 3)
      ⟨Option.some (fun _ => 0), 0, FEATURE_COLUMNS, "v1", 0⟩ []).2 (fun _ => 0) rfl).2.1,
   ((predict_contract (fun _ => 3)
      ⟨Option.some (fun _ => 0), 0, FEATURE_COLUMNS, "v1", 0⟩ []).2 (fun _ => 0) rfl).2.2⟩

/-- C5: `load_model` on a missing file or a corrupt bundle returns
`False` with the detector state unchanged (previous bundle kept); a
successful load returns `True` and publishes model, threshold,
feature_columns, model_version and training_samples together. -/
theorem load_model_atomic (fs : BundleFS) (d : AnomalyDetector) (path : String) :
    (fs path = Option.none → load_model fs d path = (false, d))
    ∧ (fs path = Option.some Option.none → load_model fs d path = (false, d))
    ∧ (∀ b m, fs path = Option.some (Option.some b) → b.model = Option.some m →
        load_model fs d path =
          (true,
           { model := Option.some m
             threshold := b.threshold.getD 0
             feature_columns := b.feature_columns.getD FEATURE_COLUMNS
             model_version := b.model_version.getD "v1"
             training_samples := b.training_samples.getD 0 })) := by
  refine ⟨?_, ?_, ?_⟩
  · intro h
    simp [load_model, h]
  · intro h
    simp [load_model, h]
  · intro b m hb hm
    simp [load_model, hb, hm]

/-- Witness for C5: a previously loaded detector survives a missing file
and a corrupt bundle; a good bundle publishes its fields. -/
theorem load_model_atomic_witness :
    load_model (fun _ => Option.none)
      ⟨Option.some (fun _ => 0), 1, FEATURE_COLUMNS, "v1", 7⟩ "models/x"
      = (false, ⟨Option.some (fun _ => 0), 1, FEATURE_COLUMNS, "v1", 7⟩)
    ∧ load_model (fun _ => Option.some Option.none)
      ⟨Option.some (fun _ => 0), 1, FEATURE_COLUMNS, "v1", 7⟩ "models/x"
      = (false, ⟨Option.some (fun _ => 0), 1, FEATURE_COLUMNS, "v1", 7⟩)
    ∧ load_model (fun _ => Option.some (Option.some
        ⟨Option.some (fun _ => 2), Option.some 1, Option.none, Option.some "v2",
         Option.some 42⟩))
      ⟨Option.none, 0, FEATURE_COLUMNS, "none", 0⟩ "models/x"
      = (true, ⟨Option.some (fun _ => 2), 1, FEATURE_COLUMNS, "v2", 42⟩) :=
  ⟨(load_model_atomic (fun _ => Option.none)
      ⟨Option.some (fun _ => 0), 1, FEATURE_COLUMNS, "v1", 7⟩ "models/x").1 rfl,
   (load_model_atomic (fun _ => Option.some Option.none)
      ⟨Option.some (fun _ => 0), 1, FEATURE_COLUMNS, "v1", 7⟩ "models/x").2.1 rfl,
   (load_model_atomic (fun _ => Option.some (Option.some
        ⟨Option.some (fun _ => 2), Option.some 1, Option.none, Option.some "v2",
         Option.some 42⟩))
      ⟨Option.none, 0, FEATURE_COLUMNS, "none", 0⟩ "models/x").2.2 _ _ rfl rfl⟩

-- ---------------------------------------------------------------------------
-- Analysis driver (backend/main.py)
-- ---------------------------------------------------------------------------

/-- The feature dict produced by `enrich_features` viewed at the loose
dict type the rule engine takes (same values, all numeric). -/
def toPDict (m : List (String × ℚ)) : PDict :=
  m.map (fun p => (p.1, PVal.num p.2))

/-- An `incident_alerts` row as `_analyze_single_tourist` builds it.
The generation wall-clock timestamp and the 4/6-decimal rounding of the
persisted numbers are elided: real time is outside the model and no claim
concerns rounding. -/
structure IncidentAlert where
  tourist_id : PVal
  rule_score : ℚ
  anomaly_score : ℚ
  hybrid_score : ℚ
  severity : Severity
  triggered_rules : List String
  feature_vector : List (String × ℚ)
  latitude : Option PVal
  longitude : Option PVal
  zone_state : Option PVal
  model_version : String

/-- Source `_analyze_single_tourist`: enrich, rules, ML, fusion; an alert dict
when `should_alert`, else `None`.  `agg_row["tourist_id"]` and the
unguarded `enrich_features` call can raise, and nothing here catches. -/
def analyze_single_tourist (hav : ℚ → ℚ → ℚ → ℚ → ℚ) (expF : ℚ → ℚ)
    (det : AnomalyDetector) (rule_weight ml_weight : ℚ)
    (alert_threshold : Severity) (agg_row : PDict) (raw_events : List Event) :
    Except Unit (Option IncidentAlert) := do
  let tourist_id ← match agg_row.lookup "tourist_id" with
    | Option.some v => Except.ok v
    | Option.none => Except.error ()
  let features ← enrich_features hav agg_row raw_events 120
  let rule_output := evaluate_rules (toPDict features) raw_events
  let ml_score := predict expF det features
  let fusion := compute_hybrid_score rule_output.rule_score ml_score
    rule_weight ml_weight alert_threshold
  if fusion.should_alert then
    Except.ok (Option.some
      { tourist_id := tourist_id
        rule_score := fusion.rule_score
        anomaly_score := fusion.anomaly_score
        hybrid_score := fusion.hybrid_score
        severity := fusion.severity
        triggered_rules := rule_output.triggered_rules
        feature_vector := features
        latitude := agg_row.lookup "latest_latitude"
        longitude := agg_row.lookup "latest_longitude"
        zone_state := agg_row.lookup "latest_zone_state"
        model_version := det.model_version })
  else Except.ok Option.none

/-- The per-tourist loop of `analyze_all_tourists`: skip rows with a
falsy `tourist_id`, fetch that tourist's raw events, analyze, collect
inserted alerts.  The loop has no `try/except`: an exception from
`_analyze_single_tourist` propagates and aborts the remaining rows. -/
def analyzeLoop (hav : ℚ → ℚ → ℚ → ℚ → ℚ) (expF : ℚ → ℚ)
    (det : AnomalyDetector) (rule_weight ml_weight : ℚ)
    (alert_threshold : Severity) (eventsOf : PVal → List Event) :
    List PDict → Except Unit (List IncidentAlert)
  | [] => .ok []
  | row :: rest =>
    let tid := (row.lookup "tourist_id").getD PVal.none
    if pyTruthy tid = false then
      analyzeLoop hav expF det rule_weight ml_weight alert_threshold eventsOf rest
    else
      match analyze_single_tourist hav expF det rule_weight ml_weight
        alert_threshold row (eventsOf tid) with
      | .error e => .error e
      | .ok alertOpt =>
        match analyzeLoop hav expF det rule_weight ml_weight alert_threshold
          eventsOf rest with
        | .error e => .error e
        | .ok alerts =>
          .ok (match alertOpt with
               | Option.some a => a :: alerts
               | Option.none => alerts)

/-- Source `analyze_all_tourists` for one cycle, given the aggregated rows and
the per-tourist recent events the Event Store returns: the count of rows
examined and the alerts inserted (in order). -/
def analyze_all_tourists (hav : ℚ → ℚ → ℚ → ℚ → ℚ) (expF : ℚ → ℚ)
    (det : AnomalyDetector) (rule_weight ml_weight : ℚ)
    (alert_threshold : Severity) (agg_rows : List PDict)
    (eventsOf : PVal → List Event) : Except Unit (ℕ × List IncidentAlert) :=
  if agg_rows.isEmpty then .ok (0, [])
  else
    (analyzeLoop hav expF det rule_weight ml_weight alert_threshold
      eventsOf agg_rows).map (fun alerts => (agg_rows.length, alerts))

unseal Rat.add Rat.mul Rat.sub Rat.inv Rat.ofScientific in
/-- C3 fails on the code: `analyze_all_tourists` has no per-tourist
containment, so one malformed aggregated-row field (`float("bad")`
raising `ValueError` inside `enrich_features`) aborts the whole cycle —
the second tourist, which alone analyzes fine, is never reached. -/
theorem analysis_cycle_aborts_on_bad_row :
    analyze_all_tourists (fun _ _ _ _ => 0) (fun _ => 0)
      ⟨Option.none, 0, FEATURE_COLUMNS, "none", 0⟩ 0.6 0.4 .MEDIUM
      [[("tourist_id", PVal.str "t1"), ("event_count", PVal.str "bad")],
       [("tourist_id", PVal.str "t2"), ("panic_count", PVal.num 1)]]
      (fun _ => []) = Except.error ()
    ∧ (analyze_all_tourists (fun _ _ _ _ => 0) (fun _ => 0)
      ⟨Option.none, 0, FEATURE_COLUMNS, "none", 0⟩ 0.6 0.4 .MEDIUM
      [[("tourist_id", PVal.str "t2"), ("panic_count", PVal.num 1)]]
      (fun _ => [])).isOk = true :=
  ⟨rfl, rfl⟩

lemma enrich_features_keys (hav : ℚ → ℚ → ℚ → ℚ → ℚ) (agg_row : PDict)
    (raw_events : List Event) (w : ℚ) {m : List (String × ℚ)}
    (hm : enrich_features hav agg_row raw_events w = .ok m) :
    m.map Prod.fst = FEATURE_COLUMNS := by
  rw [enrich_features] at hm
  refine forall2_map_fst ?_ (exceptMapList_forall2 hm)
  intro c p hc
  by_cases h1 : c = "distance_traveled"
  · simp only [h1, if_true] at hc
    cases hc; exact h1.symm
  · by_cases h2 : c = "speed_estimate"
    · simp only [h1, h2, if_false, if_true] at hc
      cases hc; exact h2.symm
    · simp only [h1, h2, if_false] at hc
      obtain ⟨q, -, hb⟩ := except_map_ok hc
      rw [hb]

lemma lookup_none_of_fst {β : Type} {m : List (String × β)} {k : String}
    (h : k ∉ m.map Prod.fst) : m.lookup k = Option.none := by
  induction m with
  | nil => rfl
  | cons p t ih =>
    obtain ⟨k', v⟩ := p
    simp only [List.map_cons, List.mem_cons] at h
    push_neg at h
    rw [List.lookup]
    have hb : (k == k') = false := beq_false_of_ne h.1
    rw [hb]
    exact ih h.2

lemma lookup_toPDict (m : List (String × ℚ)) (k : String) :
    (toPDict m).lookup k = (m.lookup k).map PVal.num := by
  induction m with
  | nil => rfl
  | cons p t ih =>
    obtain ⟨k', v⟩ := p
    rw [toPDict, List.map_cons, List.lookup, List.lookup]
    cases hb : (k == k') with
    | true => rfl
    | false => exact ih

lemma mem_triggered_rules {features : PDict} {events : List Event} {id : String}
    (h : id ∈ (evaluate_rules features events).triggered_rules) :
    ∃ r, Except.ok r ∈ ruleExcepts features events ∧ r.triggered = true
      ∧ r.rule_id = id := by
  by_cases hE :
    (collectOks (ruleExcepts features events)).filter (fun r => r.triggered) = []
  · rw [evaluate_rules] at h
    simp [hE] at h
  · have hIE : ((collectOks (ruleExcepts features events)).filter
        (fun r => r.triggered)).isEmpty = false := by
      simpa [List.isEmpty_iff] using hE
    rw [evaluate_rules] at h
    simp only [hIE, Bool.false_eq_true, if_false] at h
    obtain ⟨r, hr, hid⟩ := List.mem_map.mp h
    have hmem := List.mem_filter.mp hr
    exact ⟨r, mem_collectOks hmem.1, by simpa using hmem.2, hid⟩

/-- C10: in the composed pipeline R6 can never trigger — the enriched
feature mapping holds exactly the 12 canonical names, never a
`latest_zone_state` key, so R6's `latest_zone == "IN_DANGER"` check sees
the `""` default and `"R6"` never appears in the triggered rules, even
when the aggregated row supplies `latest_zone_state`. -/
theorem r6_never_triggers_in_pipeline (hav : ℚ → ℚ → ℚ → ℚ → ℚ)
    (agg_row : PDict) (raw_events : List Event) (w : ℚ)
    (m : List (String × ℚ))
    (hm : enrich_features hav agg_row raw_events w = .ok m) :
    m.map Prod.fst = FEATURE_COLUMNS
    ∧ m.lookup "latest_zone_state" = Option.none
    ∧ "R6" ∉ (evaluate_rules (toPDict m) raw_events).triggered_rules := by
  have hkeys := enrich_features_keys hav agg_row raw_events w hm
  have hnone : m.lookup "latest_zone_state" = Option.none := by
    apply lookup_none_of_fst
    rw [hkeys]
    decide
  refine ⟨hkeys, hnone, ?_⟩
  intro habs
  obtain ⟨r, hmem, htrig, hid⟩ := mem_triggered_rules habs
  have hc6 : cond_r6 (toPDict m) raw_events = .ok false := by
    rw [cond_r6, pyGet, lookup_toPDict, hnone]
    rfl
  simp only [ruleExcepts, rule_r1_sustained_danger, rule_r2_panic,
    rule_r3_rapid_transition, rule_r4_erratic_movement, rule_r5_extended_danger,
    rule_r6_danger_no_exit, List.mem_cons, List.not_mem_nil, or_false] at hmem
  rcases hmem with h | h | h | h | h | h <;>
    obtain ⟨t, hcond, hb⟩ := except_map_ok h.symm <;>
    rw [hb] at hid htrig
  · exact absurd hid (by simp [mkRuleResult])
  · exact absurd hid (by simp [mkRuleResult])
  · exact absurd hid (by simp [mkRuleResult])
  · exact absurd hid (by simp [mkRuleResult])
  · exact absurd hid (by simp [mkRuleResult])
  · rw [hc6] at hcond
    cases hcond
    exact absurd htrig (by simp [mkRuleResult])

unseal Rat.add Rat.mul Rat.inv Rat.ofScientific in
/-- Witness for C10: a row that supplies `latest_zone_state = IN_DANGER`
and a large risk timer still cannot make R6 fire downstream of Enrich. -/
theorem r6_never_triggers_in_pipeline_witness :
    ([("event_count", (0:ℚ)), ("unique_zones", 0), ("danger_ratio", 0),
      ("caution_ratio", 0), ("panic_count", 0), ("zone_transitions", 0),
      ("max_risk_timer", 100), ("avg_risk_timer", 0), ("lat_std", 0),
      ("lng_std", 0), ("distance_traveled", 0),
      ("speed_estimate", 0)].map Prod.fst = FEATURE_COLUMNS)
    ∧ List.lookup "latest_zone_state"
        [("event_count", (0:ℚ)), ("unique_zones", 0), ("danger_ratio", 0),
         ("caution_ratio", 0), ("panic_count", 0), ("zone_transitions", 0),
         ("max_risk_timer", 100), ("avg_risk_timer", 0), ("lat_std", 0),
         ("lng_std", 0), ("distance_traveled", 0), ("speed_estimate", 0)]
        = Option.none
    ∧ "R6" ∉ (evaluate_rules (toPDict
        [("event_count", (0:ℚ)), ("unique_zones", 0), ("danger_ratio", 0),
         ("caution_ratio", 0), ("panic_count", 0), ("zone_transitions", 0),
         ("max_risk_timer", 100), ("avg_risk_timer", 0), ("lat_std", 0),
         ("lng_std", 0), ("distance_traveled", 0), ("speed_estimate", 0)])
        []).triggered_rules :=
  r6_never_triggers_in_pipeline (fun _ _ _ _ => 0)
    [("latest_zone_state", PVal.str "IN_DANGER"),
     ("max_risk_timer", PVal.num 100)] [] 120
    [("event_count", (0:ℚ)), ("unique_zones", 0), ("danger_ratio", 0),
     ("caution_ratio", 0), ("panic_count", 0), ("zone_transitions", 0),
     ("max_risk_timer", 100), ("avg_risk_timer", 0), ("lat_std", 0),
     ("lng_std", 0), ("distance_traveled", 0), ("speed_estimate", 0)]
    (by rfl)
